import Mathlib

/-!
# Verification of the assessment-session router (`api/routers/assessments.py`)

Shallow embedding of the route handlers in `api/routers/assessments.py`.
Dynamic (JSON-like) Python values are embedded as the inductive `Json`;
Python truthiness is `Json.truthy`.  Route handlers become explicit
functions from their parsed inputs and a database snapshot `Db` to an
HTTP-level result paired with the resulting database.  The external
`AssessmentService` collaborator is a record of operations passed to each
handler; a concrete instance (`specService`) models from the spec the
operations whose code is not part of the source file.
-/

namespace Assessments

/-- A dynamically typed (JSON-like) Python value. -/
inductive Json where
  | null : Json
  | bool (b : Bool) : Json
  | num (n : Int) : Json
  | str (s : String) : Json
  | arr (xs : List Json) : Json
  | obj (fields : List (String × Json)) : Json
deriving Repr

mutual

/-- Structural equality test on dynamic values (Python `==` restricted to
the shapes this router manipulates). -/
def Json.beq : Json → Json → Bool
  | .null, .null => true
  | .bool a, .bool b => a == b
  | .num a, .num b => a == b
  | .str a, .str b => a == b
  | .arr xs, .arr ys => Json.beqList xs ys
  | .obj xs, .obj ys => Json.beqFields xs ys
  | _, _ => false

/-- Elementwise `Json.beq` on lists. -/
def Json.beqList : List Json → List Json → Bool
  | [], [] => true
  | x :: xs, y :: ys => Json.beq x y && Json.beqList xs ys
  | _, _ => false

/-- Elementwise `Json.beq` on association lists. -/
def Json.beqFields : List (String × Json) → List (String × Json) → Bool
  | [], [] => true
  | (k1, v1) :: xs, (k2, v2) :: ys =>
      k1 == k2 && Json.beq v1 v2 && Json.beqFields xs ys
  | _, _ => false

end

instance : BEq Json := ⟨Json.beq⟩

/-- Python truthiness (`bool(v)`) of a dynamic value: `None`, `False`, `0`,
`""`, `[]` and `{}` are falsy, everything else truthy. -/
def Json.truthy : Json → Bool
  | .null => false
  | .bool b => b
  | .num n => n != 0
  | .str s => s != ""
  | .arr xs => !xs.isEmpty
  | .obj fs => !fs.isEmpty

/-- Python `d.get(k)` on a dict embedded as an association list: the value
bound to `k`, or `None` when the key is absent. -/
def pyGet (d : List (String × Json)) (k : String) : Json :=
  match d.find? (fun p => p.1 == k) with
  | some p => p.2
  | none => Json.null

/-- Removing a key from a dict (used to compare a payload with the same
payload in which `question_id` is absent). -/
def removeKey (d : List (String × Json)) (k : String) : List (String × Json) :=
  d.filter (fun p => !(p.1 == k))

/-- Whether `needle` is a prefix of `hay` (character lists). -/
def charsPre : List Char → List Char → Bool
  | [], _ => true
  | _ :: _, [] => false
  | a :: as_, b :: bs => a == b && charsPre as_ bs

/-- Whether `needle` occurs as a contiguous substring of `hay`
(character lists); embeds Python's `needle in hay` on strings. -/
def charsSub (needle : List Char) : List Char → Bool
  | [] => charsPre needle []
  | c :: rest => charsPre needle (c :: rest) || charsSub needle rest

/-- Python `needle in hay` for strings: substring containment. -/
def strContainsSub (hay needle : String) : Bool :=
  charsSub needle.data hay.data

/-! ## Data model

`database.compliance_framework.ComplianceFramework` rows and assessment
sessions as the router observes them.  UUIDs are embedded as `Nat`. -/

/-- A `ComplianceFramework` row: id, name, description, active flag. -/
structure ComplianceFramework where
  id : Nat
  name : String
  description : String
  is_active : Bool
deriving DecidableEq, Repr

/-- An assessment session as this layer observes it: owner, session type,
business profile, per-question responses, an optional persisted
recommendations list, and a completion state. -/
structure AssessmentSession where
  id : Nat
  user_id : Nat
  session_type : String
  business_profile_id : Nat
  responses : List (Json × Json)
  recommendations : Option (List Json)
  completed : Bool

/-- The database snapshot a request observes: session rows and
compliance-framework rows. -/
structure Db where
  sessions : List AssessmentSession
  frameworks : List ComplianceFramework

/-- Outcome of one route handler: a successful body, or an
`HTTPException(status_code, detail)`. -/
inductive HandlerResult (α : Type) where
  | ok : α → HandlerResult α
  | error : Nat → String → HandlerResult α

/-! ## The external `AssessmentService` collaborator

The service's code is not part of the source file; handlers receive its
operations as a record.  Mutating operations return a result together with
the database that results from the call. -/

/-- The operations of the external `AssessmentService` that the handlers
under study invoke.  Dynamic arguments (question id, response value) are
`Json`. -/
structure ServiceT where
  get_assessment_session : Db → Nat → Nat → Option AssessmentSession
  get_current_assessment_session : Db → Nat → Option AssessmentSession
  update_assessment_response :
    Db → Nat → Nat → Json → Json → HandlerResult AssessmentSession × Db
  complete_assessment_session : Db → Nat → Nat → HandlerResult AssessmentSession × Db
  start_assessment_session : Db → Nat → String → Nat → HandlerResult AssessmentSession × Db

/-- Modelled from the spec: ownership-scoped session lookup performed by
`AssessmentService.get_assessment_session` (absent from the source file);
"a session always belongs to exactly one authenticated user; all
reads/writes are scoped to the requesting user's sessions (enforced by
the service)". -/
def svcGetSession (db : Db) (user : Nat) (session_id : Nat) : Option AssessmentSession :=
  db.sessions.find? (fun s => s.id == session_id && s.user_id == user)

/-- Modelled from the spec: `AssessmentService.get_current_assessment_session`
(absent from the source file); "returns the caller's most recent/active
session", here the first not-yet-completed session owned by the caller. -/
def svcGetCurrent (db : Db) (user : Nat) : Option AssessmentSession :=
  db.sessions.find? (fun s => s.user_id == user && !s.completed)

/-- Upsert of one answer into a session's response set, keyed by question
id; last write wins. -/
def upsertResponse (rs : List (Json × Json)) (qid v : Json) : List (Json × Json) :=
  match rs with
  | [] => [(qid, v)]
  | (k, w) :: rest =>
      if Json.beq k qid then (k, v) :: rest
      else (k, w) :: upsertResponse rest qid v

/-- Replace the session with id `sid` by `s'` in a session list. -/
def replaceSession (sessions : List AssessmentSession) (sid : Nat)
    (s' : AssessmentSession) : List AssessmentSession :=
  sessions.map (fun s => if s.id == sid then s' else s)

/-- Modelled from the spec: `AssessmentService.update_assessment_response`
(absent from the source file); "given a session id, a question id, and a
response value, upserts the answer into the session's response set"
(idempotent per question id, last write wins), ownership-scoped, and
Not-Found when the session is absent or not owned. -/
def svcUpdateResponse (db : Db) (user : Nat) (session_id : Nat) (qid v : Json) :
    HandlerResult AssessmentSession × Db :=
  match svcGetSession db user session_id with
  | none => (.error 404 "Assessment session not found", db)
  | some s =>
      let s' := { s with responses := upsertResponse s.responses qid v }
      (.ok s', { db with sessions := replaceSession db.sessions session_id s' })

/-- Modelled from the spec: `AssessmentService.complete_assessment_session`
(absent from the source file); "transitions a session to completed state",
ownership-scoped, Not-Found when the session is absent or not owned
(spec error taxonomy: "Not-Found (session absent/not owned)"). -/
def svcComplete (db : Db) (user : Nat) (session_id : Nat) :
    HandlerResult AssessmentSession × Db :=
  match svcGetSession db user session_id with
  | none => (.error 404 "Assessment session not found", db)
  | some s =>
      let s' := { s with completed := true }
      (.ok s', { db with sessions := replaceSession db.sessions session_id s' })

/-- Modelled from the spec: `AssessmentService.start_assessment_session`
(absent from the source file); "given a session type and business-profile
id, creates and returns a new session" for the caller. -/
def svcStart (db : Db) (user : Nat) (session_type : String) (business_profile_id : Nat) :
    HandlerResult AssessmentSession × Db :=
  let s : AssessmentSession :=
    { id := db.sessions.length + 1
      user_id := user
      session_type := session_type
      business_profile_id := business_profile_id
      responses := []
      recommendations := none
      completed := false }
  (.ok s, { db with sessions := db.sessions ++ [s] })

/-- The concrete service instance used where a claim quantifies over the
database rather than over the service's behaviour; each operation is
modelled from the spec as documented on the respective definition. -/
def specService : ServiceT where
  get_assessment_session := svcGetSession
  get_current_assessment_session := svcGetCurrent
  update_assessment_response := svcUpdateResponse
  complete_assessment_session := svcComplete
  start_assessment_session := svcStart

/-! ## Request/response schemas -/

/-- Body of `POST /quick` (`QuickAssessmentRequest` in the source). -/
structure QuickAssessmentRequest where
  business_profile_id : String
  assessment_type : String
  industry_standard : Bool
deriving DecidableEq, Repr

/-- `FrameworkInfo` in the source. -/
structure FrameworkInfo where
  name : String
  description : String := ""
deriving DecidableEq, Repr

/-- `QuickRecommendation` in the source. -/
structure QuickRecommendation where
  framework : FrameworkInfo
  priority : String := "medium"
  description : String := ""
deriving DecidableEq, Repr

/-- `QuickAssessmentResponse` in the source. -/
structure QuickAssessmentResponse where
  recommendations : List QuickRecommendation
deriving DecidableEq, Repr

/-- Modelled from the spec: `AssessmentSessionCreate` (defined in the
absent `api/schemas/models`); the handlers read its `session_type` and
`business_profile_id` fields. -/
structure AssessmentSessionCreate where
  session_type : String
  business_profile_id : Nat

/-- Modelled from the spec: `AssessmentResponseUpdate` (defined in the
absent `api/schemas/models`); the strongly typed update route reads its
`question_id` (a string) and `response` fields. -/
structure AssessmentResponseUpdate where
  question_id : String
  response : Json

/-! ## Route handlers (translated from `api/routers/assessments.py`) -/

/-- `POST /quick` — `quick_assessment` in the source: always append the
GDPR recommendation; when `industry_standard` is set, additionally append
ISO 27001 and SOC 2.  The authenticated caller is accepted but unused.
The handler takes no database handle: it is stateless and total. -/
def quick_assessment (request : QuickAssessmentRequest) (current_user : Nat) :
    QuickAssessmentResponse :=
  let recommendations : List QuickRecommendation := []
  let recommendations := recommendations ++
    [{ framework :=
        { name := "GDPR (General Data Protection Regulation)"
          description := "EU data protection regulation" }
       priority := "high"
       description := "Essential for businesses handling personal data of EU residents" }]
  let recommendations :=
    if request.industry_standard then
      recommendations ++
        [{ framework :=
            { name := "ISO 27001"
              description := "Information security management standard" }
           priority := "medium"
           description := "Industry standard for information security management" },
         { framework :=
            { name := "SOC 2"
              description := "Security and availability controls" }
           priority := "medium"
           description := "Important for service organizations handling customer data" }]
    else recommendations
  { recommendations := recommendations }

/-- `POST /` — `create_assessment` in the source: delegate to
`start_assessment_session` with the caller, session type and
business-profile id. -/
def create_assessment (svc : ServiceT) (session_data : AssessmentSessionCreate)
    (current_user : Nat) (db : Db) : HandlerResult AssessmentSession × Db :=
  svc.start_assessment_session db current_user session_data.session_type
    session_data.business_profile_id

/-- Response status code declared on `POST /` (`status.HTTP_201_CREATED`). -/
def create_assessment_status : Nat := 201

/-- `POST /start` — `start_assessment` in the source: delegate to
`start_assessment_session` with the caller, session type and
business-profile id. -/
def start_assessment (svc : ServiceT) (session_data : AssessmentSessionCreate)
    (current_user : Nat) (db : Db) : HandlerResult AssessmentSession × Db :=
  svc.start_assessment_session db current_user session_data.session_type
    session_data.business_profile_id

/-- Response status code declared on `POST /start` (`status.HTTP_201_CREATED`). -/
def start_assessment_status : Nat := 201

/-- `GET /current` — `get_current_session` in the source: the service's
current session for the caller, or a 404 with detail
"No active assessment session". -/
def get_current_session (svc : ServiceT) (current_user : Nat) (db : Db) :
    HandlerResult AssessmentSession × Db :=
  match svc.get_current_assessment_session db current_user with
  | none => (.error 404 "No active assessment session", db)
  | some session => (.ok session, db)

/-- `PUT /{session_id}/response` — `update_response` in the source:
delegate to `update_assessment_response` with the parsed question id and
response value.  (The schema's string-typed question id enters the
dynamically typed service call as `Json.str`.) -/
def update_response (svc : ServiceT) (session_id : Nat)
    (response_data : AssessmentResponseUpdate) (current_user : Nat) (db : Db) :
    HandlerResult AssessmentSession × Db :=
  svc.update_assessment_response db current_user session_id
    (Json.str response_data.question_id) response_data.response

/-- `POST /{session_id}/responses` — `update_responses` in the source:
read `question_id` and `response` out of the loosely structured payload;
400 when `question_id` is missing (Python truthiness: absent or falsy),
otherwise delegate to `update_assessment_response`. -/
def update_responses (svc : ServiceT) (session_id : Nat)
    (response_data : List (String × Json)) (current_user : Nat) (db : Db) :
    HandlerResult AssessmentSession × Db :=
  let question_id := pyGet response_data "question_id"
  let response := pyGet response_data "response"
  if !question_id.truthy then
    (.error 400 "question_id is required", db)
  else
    svc.update_assessment_response db current_user session_id question_id response

/-- `GET /{session_id}` — `get_assessment_session` in the source: the
service's session, or a 404 with detail "Assessment session not found". -/
def get_assessment_session (svc : ServiceT) (session_id : Nat) (current_user : Nat)
    (db : Db) : HandlerResult AssessmentSession × Db :=
  match svc.get_assessment_session db current_user session_id with
  | none => (.error 404 "Assessment session not found", db)
  | some session => (.ok session, db)

/-- One synthesized fallback recommendation entry for a framework, with
the priority computed in the source's loop body. -/
def synthEntry (framework : ComplianceFramework) (priority : String) : Json :=
  .obj [("framework", .obj [("id", .str (toString framework.id)),
                            ("name", .str framework.name),
                            ("description", .str framework.description)]),
        ("priority", .str priority),
        ("description", .str "Recommended based on your business profile")]

/-- The source's fallback loop over framework rows: for each framework
whose name contains "GDPR" or "ISO", append an entry whose priority is
"High" when the name contains "GDPR" and "Medium" otherwise. -/
def synthRecs : List ComplianceFramework → List Json
  | [] => []
  | framework :: rest =>
      if strContainsSub framework.name "GDPR" || strContainsSub framework.name "ISO" then
        let priority := if strContainsSub framework.name "GDPR" then "High" else "Medium"
        synthEntry framework priority :: synthRecs rest
      else
        synthRecs rest

/-- `GET /{session_id}/recommendations` — `get_assessment_recommendations`
in the source: 404 when the service yields no session; otherwise the
session's persisted recommendations when that list is truthy (non-empty),
else entries synthesized from the active framework rows. -/
def get_assessment_recommendations (svc : ServiceT) (session_id : Nat)
    (current_user : Nat) (db : Db) : HandlerResult (List Json) × Db :=
  match svc.get_assessment_session db current_user session_id with
  | none => (.error 404 "Assessment session not found", db)
  | some session =>
      let frameworks := db.frameworks.filter (fun f => f.is_active)
      let recommendations :=
        match session.recommendations with
        | some l => if !l.isEmpty then l else synthRecs frameworks
        | none => synthRecs frameworks
      (.ok recommendations, db)

/-- `POST /{session_id}/complete` — `complete_assessment` in the source:
delegate to `complete_assessment_session`; the handler adds no check of
its own. -/
def complete_assessment (svc : ServiceT) (session_id : Nat) (current_user : Nat)
    (db : Db) : HandlerResult AssessmentSession × Db :=
  svc.complete_assessment_session db current_user session_id

/-! ## Concrete fixtures used by witnesses and counterexamples -/

/-- Whether a handler result is a success. -/
def HandlerResult.isOk {α : Type} : HandlerResult α → Bool
  | .ok _ => true
  | .error _ _ => false

/-- Whether a recommendations result is a success carrying the empty list. -/
def okEmptyList : HandlerResult (List Json) → Bool
  | .ok l => l.isEmpty
  | .error _ _ => false

/-- A sample session owned by user 7. -/
def sampleSession : AssessmentSession :=
  { id := 1
    user_id := 7
    session_type := "compliance_scoping"
    business_profile_id := 42
    responses := []
    recommendations := none
    completed := false }

/-- Framework row whose name contains "GDPR". -/
def gdprRow : ComplianceFramework :=
  { id := 1, name := "GDPR Foo", description := "EU data protection", is_active := true }

/-- Framework row whose name contains "ISO". -/
def isoRow : ComplianceFramework :=
  { id := 2, name := "ISO 9000", description := "Quality management", is_active := true }

/-- Framework row matching neither substring. -/
def otherRow : ComplianceFramework :=
  { id := 3, name := "Other", description := "Miscellaneous", is_active := true }

/-- Sample database: one open session, three active frameworks. -/
def sampleDb : Db :=
  { sessions := [sampleSession], frameworks := [gdprRow, isoRow, otherRow] }

/-- The sample session with an empty persisted recommendations list. -/
def emptyRecSession : AssessmentSession :=
  { sampleSession with recommendations := some [] }

/-- Database holding `emptyRecSession`. -/
def emptyRecDb : Db :=
  { sessions := [emptyRecSession], frameworks := [gdprRow, isoRow, otherRow] }

/-- The sample session with a non-empty persisted recommendations list. -/
def persistedSession : AssessmentSession :=
  { sampleSession with recommendations := some [Json.str "keep"] }

/-- Database holding `persistedSession`. -/
def persistedDb : Db :=
  { sessions := [persistedSession], frameworks := [gdprRow, isoRow, otherRow] }

/-- A loose payload whose `question_id` is present but the empty string. -/
def payloadEmptyQid : List (String × Json) :=
  [("question_id", Json.str ""), ("response", Json.str "yes")]

/-! ## Helper lemmas -/

/-- Looking a key up after removing it yields `None`. -/
theorem pyGet_removeKey (d : List (String × Json)) (k : String) :
    pyGet (removeKey d k) k = Json.null := by
  unfold pyGet removeKey
  have h : (d.filter (fun p => !(p.1 == k))).find? (fun p => p.1 == k) = none := by
    rw [List.find?_eq_none]
    intro x hx
    have := List.of_mem_filter hx
    simp at this
    simp [this]
  rw [h]

/-- The source's fallback loop equals the spec's description: a
`filterMap` keeping "GDPR"-named frameworks with priority "High" and
"ISO"-named frameworks with priority "Medium", dropping all others. -/
theorem synthRecs_eq_filterMap (l : List ComplianceFramework) :
    synthRecs l = l.filterMap (fun f =>
      if strContainsSub f.name "GDPR" then some (synthEntry f "High")
      else if strContainsSub f.name "ISO" then some (synthEntry f "Medium")
      else none) := by
  induction l with
  | nil => rfl
  | cons f rest ih =>
      by_cases hg : strContainsSub f.name "GDPR" <;>
        by_cases hi : strContainsSub f.name "ISO" <;>
          simp [synthRecs, List.filterMap_cons, hg, hi, ih]

/-- The fallback loop emits an entry for every matching framework, so its
output is non-empty as soon as a matching framework is present. -/
theorem synthRecs_ne_nil {l : List ComplianceFramework} {f : ComplianceFramework}
    (hmem : f ∈ l)
    (hmatch : (strContainsSub f.name "GDPR" || strContainsSub f.name "ISO") = true) :
    synthRecs l ≠ [] := by
  induction l with
  | nil => cases hmem
  | cons g rest ih =>
      rcases List.mem_cons.mp hmem with hfg | hmem'
      · subst hfg
        simp [synthRecs, hmatch]
      · by_cases hgm : (strContainsSub g.name "GDPR" || strContainsSub g.name "ISO") = true
        · simp [synthRecs, hgm]
        · have := ih hmem'
          simp at hgm
          simp [synthRecs, hgm.1, hgm.2]
          exact this

/-! ## Claim theorems -/

/-- C1: for every request to `POST /quick`, `industry_standard = false`
yields exactly one recommendation (the GDPR framework, priority "high"),
and `industry_standard = true` yields exactly three, in the fixed order
GDPR (priority "high"), ISO 27001 (priority "medium"), SOC 2
(priority "medium"). -/
theorem quick_assessment_flag_cases (r : QuickAssessmentRequest) (u : Nat) :
    (r.industry_standard = false →
      (quick_assessment r u).recommendations.map
          (fun q => (q.framework.name, q.priority)) =
        [("GDPR (General Data Protection Regulation)", "high")]) ∧
    (r.industry_standard = true →
      (quick_assessment r u).recommendations.map
          (fun q => (q.framework.name, q.priority)) =
        [("GDPR (General Data Protection Regulation)", "high"),
         ("ISO 27001", "medium"),
         ("SOC 2", "medium")]) := by
  constructor <;> intro h <;> simp [quick_assessment, h]

/-- Witness for `quick_assessment_flag_cases` at a concrete request. -/
theorem quick_assessment_flag_cases_witness :
    (quick_assessment
        { business_profile_id := "bp-1", assessment_type := "general",
          industry_standard := false } 0).recommendations.map
        (fun q => (q.framework.name, q.priority)) =
      [("GDPR (General Data Protection Regulation)", "high")] :=
  (quick_assessment_flag_cases
    { business_profile_id := "bp-1", assessment_type := "general",
      industry_standard := false } 0).1 rfl

/-- C7: the quick-assessment handler is a deterministic function of the
`industry_standard` flag alone — two requests agreeing on the flag but
differing in `business_profile_id`, `assessment_type` or the caller get
equal responses.  (The handler's type shows the rest of the claim: it
takes no database handle, mutates nothing, and totally returns a
response, never an error.) -/
theorem quick_assessment_pure_in_flag (r1 r2 : QuickAssessmentRequest)
    (u1 u2 : Nat) (h : r1.industry_standard = r2.industry_standard) :
    quick_assessment r1 u1 = quick_assessment r2 u2 := by
  simp [quick_assessment, h]

/-- Witness for `quick_assessment_pure_in_flag` at two concrete requests
differing in profile id, assessment type and caller. -/
theorem quick_assessment_pure_in_flag_witness :
    quick_assessment
        { business_profile_id := "bp-1", assessment_type := "general",
          industry_standard := true } 0 =
      quick_assessment
        { business_profile_id := "bp-2", assessment_type := "detailed",
          industry_standard := true } 5 :=
  quick_assessment_pure_in_flag
    { business_profile_id := "bp-1", assessment_type := "general",
      industry_standard := true }
    { business_profile_id := "bp-2", assessment_type := "detailed",
      industry_standard := true } 0 5 rfl

/-- C8: `POST /` and `POST /start` are identical — for every service,
creation request, caller and database they invoke the same service
operation with the same arguments and return the same result, and both
declare status 201. -/
theorem create_and_start_identical (svc : ServiceT)
    (session_data : AssessmentSessionCreate) (current_user : Nat) (db : Db) :
    create_assessment svc session_data current_user db =
        start_assessment svc session_data current_user db ∧
      create_assessment_status = 201 ∧ start_assessment_status = 201 :=
  ⟨rfl, rfl, rfl⟩

/-- C6: `GET /current` returns the session the service yields, and
returns Not-Found exactly when the service yields no active session for
the caller. -/
theorem get_current_404_iff_none (svc : ServiceT) (current_user : Nat) (db : Db) :
    (∀ s, svc.get_current_assessment_session db current_user = some s →
        get_current_session svc current_user db = (.ok s, db)) ∧
    (get_current_session svc current_user db =
          (.error 404 "No active assessment session", db) ↔
        svc.get_current_assessment_session db current_user = none) := by
  unfold get_current_session
  cases h : svc.get_current_assessment_session db current_user <;> simp [h]

/-- Witness for `get_current_404_iff_none`: the concrete service yields
the sample session, and the route returns it. -/
theorem get_current_404_iff_none_witness :
    get_current_session specService 7 sampleDb = (.ok sampleSession, sampleDb) :=
  (get_current_404_iff_none specService 7 sampleDb).1 sampleSession rfl

/-- The ownership-scoped lookup yields nothing when no stored session has
the requested id and the requesting owner. -/
theorem svcGetSession_eq_none {db : Db} {current_user session_id : Nat}
    (h : ∀ s ∈ db.sessions, ¬(s.id = session_id ∧ s.user_id = current_user)) :
    svcGetSession db current_user session_id = none := by
  unfold svcGetSession
  rw [List.find?_eq_none]
  intro s hs
  simp only [Bool.and_eq_true, beq_iff_eq]
  intro hc
  exact h s hs ⟨hc.1, hc.2⟩

/-- C3: when no session with the requested id is owned by the caller
(the id is absent, or the session belongs to someone else), `GET
/{session_id}`, `GET /{session_id}/recommendations` and `POST
/{session_id}/complete` each return Not-Found with an unchanged
database — in particular no other session's data is returned. -/
theorem missing_or_foreign_session_404 (current_user session_id : Nat) (db : Db)
    (h : ∀ s ∈ db.sessions, ¬(s.id = session_id ∧ s.user_id = current_user)) :
    get_assessment_session specService session_id current_user db =
        (.error 404 "Assessment session not found", db) ∧
    get_assessment_recommendations specService session_id current_user db =
        (.error 404 "Assessment session not found", db) ∧
    complete_assessment specService session_id current_user db =
        (.error 404 "Assessment session not found", db) := by
  have hn : svcGetSession db current_user session_id = none := svcGetSession_eq_none h
  refine ⟨?_, ?_, ?_⟩
  · unfold get_assessment_session
    simp [specService, hn]
  · unfold get_assessment_recommendations
    simp [specService, hn]
  · unfold complete_assessment
    simp [specService, svcComplete, hn]

/-- Witness for `missing_or_foreign_session_404`: user 9 requests the
session owned by user 7 and gets Not-Found on all three routes. -/
theorem missing_or_foreign_session_404_witness :
    get_assessment_session specService 1 9 sampleDb =
        (.error 404 "Assessment session not found", sampleDb) ∧
    get_assessment_recommendations specService 1 9 sampleDb =
        (.error 404 "Assessment session not found", sampleDb) ∧
    complete_assessment specService 1 9 sampleDb =
        (.error 404 "Assessment session not found", sampleDb) :=
  missing_or_foreign_session_404 9 1 sampleDb (by
    intro s hs
    simp only [sampleDb, List.mem_singleton] at hs
    subst hs
    simp [sampleSession])

/-- C4: a loose payload with no `question_id` key makes
`POST /{session_id}/responses` return Bad-Request with an unchanged
database, whatever the service does — the result does not depend on the
service, so no service operation can have been invoked. -/
theorem update_responses_absent_qid (svc : ServiceT) (session_id : Nat)
    (payload : List (String × Json)) (current_user : Nat) (db : Db)
    (h : payload.find? (fun p => p.1 == "question_id") = none) :
    update_responses svc session_id payload current_user db =
      (.error 400 "question_id is required", db) := by
  unfold update_responses
  simp [pyGet, h, Json.truthy]

/-- Witness for `update_responses_absent_qid`: a payload carrying only a
`response` key. -/
theorem update_responses_absent_qid_witness :
    update_responses specService 1 [("response", Json.str "yes")] 7 sampleDb =
      (.error 400 "question_id is required", sampleDb) :=
  update_responses_absent_qid specService 1 [("response", Json.str "yes")] 7
    sampleDb rfl

/-- C9: a loose payload whose `question_id` key is present but holds a
falsy value (empty string, 0, `None`, `False`, …) makes
`POST /{session_id}/responses` return Bad-Request with an unchanged
database, exactly as when the key is absent — the value is never
delegated to the service. -/
theorem update_responses_falsy_qid (svc : ServiceT) (session_id : Nat)
    (payload : List (String × Json)) (current_user : Nat) (db : Db)
    (kv : String × Json)
    (hpresent : payload.find? (fun p => p.1 == "question_id") = some kv)
    (hfalsy : kv.2.truthy = false) :
    update_responses svc session_id payload current_user db =
        (.error 400 "question_id is required", db) ∧
    update_responses svc session_id payload current_user db =
      update_responses svc session_id (removeKey payload "question_id")
        current_user db := by
  have h1 : update_responses svc session_id payload current_user db =
      (.error 400 "question_id is required", db) := by
    unfold update_responses
    simp [pyGet, hpresent, hfalsy]
  have h2 : update_responses svc session_id (removeKey payload "question_id")
      current_user db = (.error 400 "question_id is required", db) := by
    unfold update_responses
    simp [pyGet_removeKey, Json.truthy]
  rw [h1, h2]
  exact ⟨rfl, rfl⟩

/-- Witness for `update_responses_falsy_qid`: `question_id` present and
equal to the empty string. -/
theorem update_responses_falsy_qid_witness :
    update_responses specService 1 payloadEmptyQid 7 sampleDb =
        (.error 400 "question_id is required", sampleDb) ∧
    update_responses specService 1 payloadEmptyQid 7 sampleDb =
      update_responses specService 1 (removeKey payloadEmptyQid "question_id")
        7 sampleDb :=
  update_responses_falsy_qid specService 1 payloadEmptyQid 7 sampleDb
    ("question_id", Json.str "") rfl rfl

/-- C2 (counterexample to the claim as stated): a session that carries a
persisted recommendations list — the empty one — does not get it back
verbatim: with an active "GDPR"-named framework present, the route
returns a synthesized non-empty list instead of the persisted `[]`. -/
theorem empty_persisted_not_verbatim_counterexample :
    specService.get_assessment_session emptyRecDb 7 1 = some emptyRecSession ∧
    emptyRecSession.recommendations = some [] ∧
    (get_assessment_recommendations specService 1 7 emptyRecDb).1 ≠
      HandlerResult.ok [] :=
  ⟨rfl, rfl, fun h => absurd (congrArg okEmptyList h) (by decide)⟩

/-- C2 (amended): on an existing session owned by the caller, a
*non-empty* persisted recommendations list is returned verbatim;
otherwise (list absent or empty) the route returns exactly one
synthesized entry per active framework whose name contains "GDPR"
(priority "High") or "ISO" (priority "Medium"), with the fixed
description carried by `synthEntry`, omitting every other active
framework. -/
theorem recommendations_for_owned_session (current_user session_id : Nat)
    (db : Db) (s : AssessmentSession)
    (hfound : specService.get_assessment_session db current_user session_id = some s) :
    (∀ l, s.recommendations = some l → l ≠ [] →
        get_assessment_recommendations specService session_id current_user db =
          (.ok l, db)) ∧
    (s.recommendations = none ∨ s.recommendations = some [] →
        get_assessment_recommendations specService session_id current_user db =
          (.ok ((db.frameworks.filter (fun f => f.is_active)).filterMap (fun f =>
              if strContainsSub f.name "GDPR" then some (synthEntry f "High")
              else if strContainsSub f.name "ISO" then some (synthEntry f "Medium")
              else none)), db)) := by
  constructor
  · intro l hl hne
    cases l with
    | nil => exact absurd rfl hne
    | cons a as => simp [get_assessment_recommendations, hfound, hl]
  · intro hcase
    rcases hcase with hnone | hempty
    · simp [get_assessment_recommendations, hfound, hnone, synthRecs_eq_filterMap]
    · simp [get_assessment_recommendations, hfound, hempty, synthRecs_eq_filterMap]

/-- Witness for `recommendations_for_owned_session`: a persisted
non-empty list comes back verbatim. -/
theorem recommendations_for_owned_session_witness :
    get_assessment_recommendations specService 1 7 persistedDb =
      (.ok [Json.str "keep"], persistedDb) :=
  (recommendations_for_owned_session 7 1 persistedDb persistedSession rfl).1
    [Json.str "keep"] rfl (List.cons_ne_nil _ _)

/-- C10: a session whose persisted recommendations list is present but
empty falls through to fallback synthesis over the active frameworks;
when some active framework matches "GDPR" or "ISO" the response is
therefore not the persisted empty list. -/
theorem empty_persisted_falls_through (current_user session_id : Nat)
    (db : Db) (s : AssessmentSession)
    (hfound : specService.get_assessment_session db current_user session_id = some s)
    (hempty : s.recommendations = some []) :
    get_assessment_recommendations specService session_id current_user db =
        (.ok (synthRecs (db.frameworks.filter (fun f => f.is_active))), db) ∧
    (∀ f ∈ db.frameworks.filter (fun f => f.is_active),
        (strContainsSub f.name "GDPR" || strContainsSub f.name "ISO") = true →
        (get_assessment_recommendations specService session_id current_user db).1 ≠
          HandlerResult.ok []) := by
  have h1 : get_assessment_recommendations specService session_id current_user db =
      (.ok (synthRecs (db.frameworks.filter (fun f => f.is_active))), db) := by
    simp [get_assessment_recommendations, hfound, hempty]
  refine ⟨h1, ?_⟩
  intro f hf hm hcontra
  rw [h1] at hcontra
  simp only [HandlerResult.ok.injEq] at hcontra
  exact synthRecs_ne_nil hf hm hcontra

/-- Witness for `empty_persisted_falls_through`: the concrete empty-list
session synthesizes from the active frameworks. -/
theorem empty_persisted_falls_through_witness :
    get_assessment_recommendations specService 1 7 emptyRecDb =
      (.ok (synthRecs (emptyRecDb.frameworks.filter (fun f => f.is_active))),
        emptyRecDb) :=
  (empty_persisted_falls_through 7 1 emptyRecDb emptyRecSession rfl rfl).1

/-- C5 (counterexample to the claim as stated): a payload whose
`question_id` is present but the empty string does not behave like the
typed route on the same question id and response — the loose route
answers Bad-Request while the typed route delegates and succeeds. -/
theorem loose_and_typed_disagree_on_falsy_qid :
    pyGet payloadEmptyQid "question_id" = Json.str "" ∧
    update_responses specService 1 payloadEmptyQid 7 sampleDb ≠
      update_response specService 1 { question_id := "", response := Json.str "yes" }
        7 sampleDb :=
  ⟨rfl, fun h => absurd (congrArg (fun p => HandlerResult.isOk p.1) h) (by decide)⟩

/-- C5 (amended): a loose payload whose `question_id` is present with a
truthy value delegates exactly like the typed route — for a string
question id `q` (necessarily non-empty) and response value `v`, `POST
/{session_id}/responses` equals `PUT /{session_id}/response` on the same
session id, question id and response, for every service. -/
theorem loose_route_matches_typed_on_truthy_qid (svc : ServiceT) (session_id : Nat)
    (payload : List (String × Json)) (current_user : Nat) (db : Db)
    (q : String) (v : Json)
    (hq : pyGet payload "question_id" = Json.str q)
    (ht : (Json.str q).truthy = true)
    (hv : pyGet payload "response" = v) :
    update_responses svc session_id payload current_user db =
      update_response svc session_id { question_id := q, response := v }
        current_user db := by
  unfold update_responses update_response
  rw [hq, hv]
  simp [ht]

/-- Witness for `loose_route_matches_typed_on_truthy_qid` at a concrete
payload with `question_id = "q1"`. -/
theorem loose_route_matches_typed_witness :
    update_responses specService 1
        [("question_id", Json.str "q1"), ("response", Json.str "yes")] 7 sampleDb =
      update_response specService 1 { question_id := "q1", response := Json.str "yes" }
        7 sampleDb :=
  loose_route_matches_typed_on_truthy_qid specService 1
    [("question_id", Json.str "q1"), ("response", Json.str "yes")] 7 sampleDb
    "q1" (Json.str "yes") rfl rfl rfl

end Assessments
